import Mathlib

/-!
Verification of the SmS_IoT fire-alarm-panel monitor against its design
document.  The development shallowly embeds the panel-link protocol layer
(`facp_connection.py`), the interactive terminal session
(`src/terminal/simplex_terminal.py`), the point-status model
(`src/monitor/point_status.py`), the points-metadata store
(`src/points/points_manager.py`) and the monitor loop
(`src/monitor/status_monitor.py`).

Conventions: wire bytes are `Nat` (values below 256 where it matters);
Python `str` values are `List Char`; a fallible Python operation returns
`Except String` where the string names the exception; Python's
`datetime.now()` is an explicit `now : Nat` parameter; serial I/O is an
explicit `Except`-valued outcome parameter describing what the exchange
produced (either the captured text or a raised exception).
-/

/-! ## Checksum codec (`FACPConnection._calculate_checksum`) -/

/-- `FACPConnection._calculate_checksum`: sum the data modulo 4096, take the
Python bitwise one's complement masked to 12 bits — `(~c) & 0xFFF`, which on
Python integers is `(-c - 1) mod 4096` — then split into two 6-bit halves
(most significant first) and add `0x40` to each. -/
def calculate_checksum (data : List Nat) : List Nat :=
  let checksum := data.sum % 4096
  let checksum := ((-(checksum : Int) - 1) % 4096).toNat
  let msb := ((checksum >>> 6) &&& 0x3F) + 0x40
  let lsb := (checksum &&& 0x3F) + 0x40
  [msb, lsb]

/-- The inbound checksum comparison of `FACPConnection.read_response`
(`calculated_checksum != checksum`), factored out: recompute and compare
byte for byte. -/
def validate_checksum (data cks : List Nat) : Bool :=
  calculate_checksum data == cks

/-- The checksum algorithm exactly as §4.1 of the spec words it: sum all
body bytes modulo 4096 (12 bits), take the one's complement restricted to
12 bits, split into two 6-bit halves (most-significant first), add the
fixed offset `0x40` to each half. -/
def checksum_of_spec (data : List Nat) : List Nat :=
  let s := data.sum % 4096
  let c := 4095 - s
  [c / 64 + 0x40, c % 64 + 0x40]

/-! ## Framed link (`FACPConnection`) -/

/-- The sequence-counter update performed at the top of
`FACPConnection._construct_message`:
`(sequence_number - 0x40 + 1) % 64 + 0x40`.  The counter starts at `0x40`
and stays at or above `0x40`, so `Nat` subtraction agrees with Python's. -/
def next_sequence (s : Nat) : Nat :=
  (s - 0x40 + 1) % 64 + 0x40

/-- `FACPConnection._construct_message`, given the current stored sequence
number and the ASCII-encoded body bytes: advance the sequence, build
`[BEGIN, sequence] ++ body ++ [END]`, then append the checksum computed
over `message[1:-1]`. -/
def construct_message (seq : Nat) (body : List Nat) : List Nat :=
  let sequence_number := next_sequence seq
  let message := [0x1C, sequence_number]
  let message := message ++ body
  let message := message ++ [0x17]
  let checksum := calculate_checksum ((message.drop 1).dropLast)
  message ++ checksum

/-- First read loop of `FACPConnection.read_response`: scan the stream for
the BEGIN byte `0x1C`, discarding anything before it; an exhausted stream
models the read timeout. -/
def scan_begin : List Nat → Except String (List Nat)
  | [] => .error "Timeout waiting for BEGIN character"
  | b :: rest => if b = 0x1C then .ok rest else scan_begin rest

/-- Second read loop of `FACPConnection.read_response`: accumulate bytes up
to and including the END byte `0x17`; returns the accumulated bytes and the
remaining stream. -/
def read_until_end : List Nat → Except String (List Nat × List Nat)
  | [] => .error "Timeout waiting for END character"
  | b :: rest =>
    if b = 0x17 then .ok ([b], rest)
    else
      match read_until_end rest with
      | .ok (acc, r) => .ok (b :: acc, r)
      | .error e => .error e

/-- `FACPConnection.read_response` over an inbound byte stream: find BEGIN,
accumulate through END, read the two checksum bytes, validate the recomputed
checksum over `response[1:-3]` (the bytes strictly between BEGIN and END),
and return the decoded body `response[2:-3]` (sequence byte stripped);
`decode('ascii')` fails on bytes at or above 128. -/
def read_response (stream : List Nat) : Except String (List Nat) :=
  match scan_begin stream with
  | .error e => .error e
  | .ok rest =>
    match read_until_end rest with
    | .error e => .error e
    | .ok (acc, rest2) =>
      match rest2 with
      | c1 :: c2 :: _ =>
        let response := 0x1C :: (acc ++ [c1, c2])
        let body := ((response.drop 1).dropLast.dropLast).dropLast
        if validate_checksum body [c1, c2] then
          let message_body := body.drop 1
          if message_body.all (· < 128) then .ok message_body
          else .error "UnicodeDecodeError"
        else .error "Checksum mismatch"
      | _ => .error "Failed to read checksum"

/-- The stored sequence number after `n` frames have been sent, starting
from the constructor's initial value `0x40`. -/
def sequence_after : Nat → Nat
  | 0 => 0x40
  | n + 1 => next_sequence (sequence_after n)

/-! ## Theorems: checksum -/

/-- Helper: the Python one's complement `(~c) & 0xFFF` of a 12-bit value. -/
theorem ones_complement_12bit (s : Nat) (h : s < 4096) :
    ((-(s : Int) - 1) % 4096).toNat = 4095 - s := by
  omega

/-- C3: the checksum implementation computes exactly the spec's algorithm
(sum mod 4096, 12-bit one's complement, 6-bit halves most-significant
first, `0x40` offset), and recomputing on the same body reproduces the same
two bytes, so `validate(b, compute(b))` holds for every byte sequence. -/
theorem checksum_matches_spec (data : List Nat) :
    calculate_checksum data = checksum_of_spec data ∧
    validate_checksum data (calculate_checksum data) = true := by
  constructor
  · simp only [calculate_checksum, checksum_of_spec]
    have hlt : data.sum % 4096 < 4096 := Nat.mod_lt _ (by norm_num)
    rw [ones_complement_12bit _ hlt]
    have h1 : (4095 - data.sum % 4096) >>> 6 = (4095 - data.sum % 4096) / 64 := by
      rw [Nat.shiftRight_eq_div_pow]
    have h2 : ∀ m : Nat, m &&& 0x3F = m % 64 := by
      intro m
      have := Nat.and_pow_two_sub_one_eq_mod m 6
      simpa using this
    have h3 : (4095 - data.sum % 4096) / 64 % 64 = (4095 - data.sum % 4096) / 64 :=
      Nat.mod_eq_of_lt (by omega)
    simp only [h1, h2, h3]
  · simp [validate_checksum]

/-! ## Theorems: framed link -/

/-- Helper: the frame emitted by `construct_message` laid out flat, with the
checksum slice `message[1:-1]` evaluated to the sequence byte followed by the
body — the END marker is not part of it. -/
theorem construct_message_eq (seq : Nat) (body : List Nat) :
    construct_message seq body =
      0x1C :: next_sequence seq :: body ++ 0x17 ::
        calculate_checksum (next_sequence seq :: body) := by
  simp only [construct_message]
  have h : (([0x1C, next_sequence seq] ++ body ++ [0x17]).drop 1).dropLast
      = next_sequence seq :: body := by
    have hd : ([0x1C, next_sequence seq] ++ body ++ [0x17]).drop 1
        = (next_sequence seq :: body) ++ [0x17] := by simp
    rw [hd, List.dropLast_concat]
  rw [h]
  simp

/-- C2 (counterexample): the two checksum bytes appended by send are not the
checksum of `[sequence, ...body, END]`: for the empty body and the initial
stored sequence `0x40`, the emitted frame disagrees with a frame whose
checksum covers the END marker `0x17`. -/
theorem send_checksum_covers_end_counterexample :
    construct_message 0x40 [] ≠
      [0x1C, next_sequence 0x40, 0x17] ++
        calculate_checksum [next_sequence 0x40, 0x17] := by
  decide

/-- Helper: the END-scan loop on bytes free of the END marker, followed by
END and a remainder, accumulates exactly through the END byte. -/
theorem read_until_end_append (xs rest : List Nat) (h : ∀ b ∈ xs, b ≠ 0x17) :
    read_until_end (xs ++ 0x17 :: rest) = .ok (xs ++ [0x17], rest) := by
  induction xs with
  | nil => simp [read_until_end]
  | cons b xs ih =>
    have hb : b ≠ 0x17 := h b (by simp)
    have ih2 := ih (fun c hc => h c (by simp [hc]))
    simp [read_until_end, hb, ih2]

/-- Helper: dropping the last three elements of `l ++ [a, b, c]`. -/
theorem dropLast_three (l : List Nat) (a b c : Nat) :
    (((l ++ [a, b, c]).dropLast).dropLast).dropLast = l := by
  have h1 : l ++ [a, b, c] = ((l ++ [a]) ++ [b]) ++ [c] := by simp
  rw [h1, List.dropLast_concat, List.dropLast_concat, List.dropLast_concat]

/-- Helper: `read_response` on one well-formed frame
`BEGIN · mid · END · c1 · c2` with no END byte inside `mid`: the checksum is
recomputed over `mid` exactly (END excluded), and on success the body is
`mid` with its leading sequence byte stripped. -/
theorem read_response_frame (mid : List Nat) (c1 c2 : Nat)
    (hmid : ∀ b ∈ mid, b ≠ 0x17) :
    read_response (0x1C :: (mid ++ 0x17 :: [c1, c2])) =
      if validate_checksum mid [c1, c2] then
        (if (mid.drop 1).all (· < 128) then .ok (mid.drop 1)
          else .error "UnicodeDecodeError")
      else .error "Checksum mismatch" := by
  have hscan : scan_begin (0x1C :: (mid ++ 0x17 :: [c1, c2]))
      = .ok (mid ++ 0x17 :: [c1, c2]) := by
    simp [scan_begin]
  have hread := read_until_end_append mid [c1, c2] hmid
  have hassoc : ((mid ++ [0x17]) ++ [c1, c2] : List Nat) = mid ++ [0x17, c1, c2] := by
    simp
  simp only [read_response, hscan, hread, List.drop_succ_cons, List.drop_zero, hassoc,
    dropLast_three]

/-- Helper: the checksum codec always produces exactly two bytes. -/
theorem calculate_checksum_pair (data : List Nat) :
    ∃ a b, calculate_checksum data = [a, b] :=
  ⟨_, _, rfl⟩

/-- Helper: an advanced sequence number is at least `0x40`, hence never a
BEGIN or END marker. -/
theorem next_sequence_ge (s : Nat) : 0x40 ≤ next_sequence s := by
  simp only [next_sequence]
  omega

/-- C2 (amended): the two checksum bytes appended by send are computed over
`[sequence, ...body]` with the END marker excluded, and receive revalidates
the checksum over the bytes strictly between BEGIN and END — the END marker
again excluded. -/
theorem frame_checksum_excludes_end :
    (∀ seq body, construct_message seq body =
        0x1C :: next_sequence seq :: body ++ 0x17 ::
          calculate_checksum (next_sequence seq :: body)) ∧
    (∀ mid c1 c2, (∀ b ∈ mid, b ≠ 0x17 ∧ b < 128) →
        read_response (0x1C :: (mid ++ 0x17 :: [c1, c2])) =
          if calculate_checksum mid = [c1, c2] then .ok (mid.drop 1)
          else .error "Checksum mismatch") := by
  constructor
  · exact construct_message_eq
  · intro mid c1 c2 hmid
    rw [read_response_frame mid c1 c2 (fun b hb => (hmid b hb).1)]
    have hall : (mid.drop 1).all (· < 128) = true := by
      refine List.all_eq_true.2 ?_
      intro b hb
      exact decide_eq_true (hmid b (List.mem_of_mem_drop hb)).2
    by_cases hc : calculate_checksum mid = [c1, c2]
    · have hv : validate_checksum mid [c1, c2] = true := by
        simp [validate_checksum, hc]
      rw [if_pos hv, if_pos hc, hall]
      simp
    · have hv : validate_checksum mid [c1, c2] = false := by
        simp [validate_checksum]
        exact hc
      rw [hv, if_neg hc]
      simp

/-- C2 (witness): a concrete frame whose body is empty: receive validates the
checksum over the single sequence byte and returns the empty body. -/
theorem frame_checksum_excludes_end_witness :
    read_response (0x1C :: ([0x41] ++ 0x17 :: [126, 126])) = .ok [] := by
  have h := frame_checksum_excludes_end.2 [0x41] 126 126 (by decide)
  rw [h, if_pos (by decide)]
  rfl

/-- C4: framing round-trip — for every body of ASCII bytes containing
neither the BEGIN nor the END marker, feeding the byte stream emitted by
send into the receive parser validates the checksum and returns the body
unchanged, with the sequence byte and the markers stripped. -/
theorem frame_roundtrip (seq : Nat) (body : List Nat)
    (hbody : ∀ b ∈ body, b < 128 ∧ b ≠ 0x17 ∧ b ≠ 0x1C) :
    read_response (construct_message seq body) = .ok body := by
  rw [construct_message_eq]
  obtain ⟨a, b, hab⟩ := calculate_checksum_pair (next_sequence seq :: body)
  rw [hab]
  have hmid : ∀ x ∈ (next_sequence seq :: body), x ≠ 0x17 := by
    intro x hx
    rcases List.mem_cons.1 hx with h | h
    · subst h
      have := next_sequence_ge seq
      omega
    · exact (hbody x h).2.1
  have hframe := read_response_frame (next_sequence seq :: body) a b hmid
  have hshape : (0x1C :: next_sequence seq :: body ++ 0x17 :: [a, b])
      = (0x1C :: ((next_sequence seq :: body) ++ 0x17 :: [a, b])) := by
    simp
  rw [hshape, hframe]
  have hv : validate_checksum (next_sequence seq :: body) [a, b] = true := by
    simp [validate_checksum, hab]
  have hall : ((next_sequence seq :: body).drop 1).all (· < 128) = true := by
    refine List.all_eq_true.2 ?_
    intro x hx
    simp only [List.drop_succ_cons, List.drop_zero] at hx
    exact decide_eq_true (hbody x hx).1
  rw [if_pos hv]
  simp only [List.drop_succ_cons, List.drop_zero] at hall ⊢
  rw [hall]
  simp

/-- C4 (witness): the concrete body `[0x41, 0x42]` framed from the initial
sequence number round-trips through the parser unchanged. -/
theorem frame_roundtrip_witness :
    read_response (construct_message 0x40 [0x41, 0x42]) = .ok [0x41, 0x42] :=
  frame_roundtrip 0x40 [0x41, 0x42] (by decide)

/-- Helper: closed form of the stored sequence counter. -/
theorem sequence_after_eq (n : Nat) : sequence_after n = 0x40 + n % 64 := by
  induction n with
  | zero => rfl
  | succ n ih =>
    simp only [sequence_after, ih, next_sequence]
    omega

/-- C7: the sequence byte placed in the `n`-th emitted frame is
`sequence_after (n+1)` (the counter is advanced before being written), it
always lies in `0x40`–`0x7F`, and from one emitted frame to the next it
increases by exactly 1 modulo 64, independently of anything received. -/
theorem sequence_byte_invariant (n : Nat) (body : List Nat) :
    (construct_message (sequence_after n) body)[1]? = some (sequence_after (n + 1)) ∧
    0x40 ≤ sequence_after (n + 1) ∧ sequence_after (n + 1) ≤ 0x7F ∧
    sequence_after (n + 2) - 0x40 = (sequence_after (n + 1) - 0x40 + 1) % 64 := by
  refine ⟨?_, ?_, ?_, ?_⟩
  · rw [construct_message_eq]
    simp [sequence_after]
  · rw [sequence_after_eq]
    omega
  · rw [sequence_after_eq]
    omega
  · rw [sequence_after_eq, sequence_after_eq]
    omega

/-! ## Point status (`src/monitor/point_status.py`)

Python `str` values are modelled as `List Char`; the string constants
`'Analog'`, `'Fire'`, ... used for `point_type` and `state_type` are
modelled as enums (the Python code only ever compares them for equality). -/

/-- The `point_type` string constants of `PointStatus.from_clist_line`. -/
inductive PointType where
  | Analog
  | Digital
  | Mapnet
  | Physical
deriving DecidableEq, Repr

/-- The `state_type` string constants of `PointStatus.from_clist_line`. -/
inductive StateType where
  | Control
  | Trouble
  | Utility
  | Fire
  | Supervisory
  | Priority2
  | Unknown
deriving DecidableEq, Repr

/-- The `PointStatus` dataclass; `timestamp` is the `datetime.now()` value
at construction, passed in explicitly. -/
structure PointStatus where
  point_id : List Char
  status : List Char
  timestamp : Nat
  point_type : PointType
  state_type : StateType
  is_active : Bool
  is_acknowledged : Bool
deriving DecidableEq, Repr

/-- The state-type lookup table of `PointStatus.from_clist_line`, applied to
`status[0]`, defaulting to Unknown. -/
def state_type_of (c : Char) : StateType :=
  if c = 'C' then .Control
  else if c = 'T' then .Trouble
  else if c = 'U' then .Utility
  else if c = 'F' then .Fire
  else if c = 'S' then .Supervisory
  else if c = 'P' then .Priority2
  else .Unknown

/-- The point-type dispatch of `PointStatus.from_clist_line` on the
`point_id` prefix (`startswith`). -/
def point_type_of (point_id : List Char) : PointType :=
  if ['A'].isPrefixOf point_id then .Analog
  else if ['P'].isPrefixOf point_id then .Digital
  else if ['M'].isPrefixOf point_id then .Mapnet
  else .Physical

/-- `PointStatus.from_clist_line`: derives the typed fields from the raw
`(point_id, status)` pair.  It indexes `status[0]`, `status[1]` and
`status[2]` unconditionally; `none` models the `IndexError` Python raises
when the status token is shorter than 3 characters. -/
def from_clist_line (point_id status : List Char) (now : Nat) : Option PointStatus :=
  match status with
  | c0 :: c1 :: c2 :: _ =>
    some
      { point_id := point_id
        status := status
        timestamp := now
        point_type := point_type_of point_id
        state_type := state_type_of c0
        is_active := c1 == '1'
        is_acknowledged := c2 == '-' }
  | _ => none

/-- The `StatusChange` dataclass exactly as declared in
`src/monitor/point_status.py`: it has no `enriched_data` or
`previous_enriched_data` field. -/
structure StatusChange where
  change_type : List Char
  previous_status : Option PointStatus
  new_status : Option PointStatus
  timestamp : Nat := 0
deriving DecidableEq, Repr

/-! ## Interactive terminal (`src/terminal/simplex_terminal.py`) -/

/-- The outcome of one serial command/response exchange as seen inside
`SimplexTerminal.send_command`'s `try` block: either the captured response
text or a raised exception. -/
abbrev LinkOutcome := Except String (List Char)

/-- `SimplexTerminal.send_command`: the `try` body yields the captured
response; the `except` clause turns any raised exception into `""`. -/
def send_command (outcome : LinkOutcome) : List Char :=
  match outcome with
  | .ok response => response
  | .error _ => []

/-- Python `c.isspace()` for the characters the panel can emit — the
whitespace set recognised by `str.strip` and no-argument `str.split`. -/
def is_space (c : Char) : Bool :=
  c = ' ' ∨ c = '\t' ∨ c = '\n' ∨ c = '\r' ∨ c = '\x0b' ∨ c = '\x0c'

/-- Python `str.strip()`: remove leading and trailing whitespace. -/
def strip (s : List Char) : List Char :=
  ((s.dropWhile is_space).reverse.dropWhile is_space).reverse

/-- Python `str.split('\n')`: split on every newline, keeping empty
pieces. -/
def split_lines : List Char → List (List Char)
  | [] => [[]]
  | c :: rest =>
    let r := split_lines rest
    if c = '\n' then [] :: r
    else
      match r with
      | h :: t => (c :: h) :: t
      | [] => [[c]]

/-- Raw splitting on single whitespace characters, keeping empty pieces. -/
def split_ws_raw : List Char → List (List Char)
  | [] => [[]]
  | c :: rest =>
    let r := split_ws_raw rest
    if is_space c then [] :: r
    else
      match r with
      | h :: t => (c :: h) :: t
      | [] => [[c]]

/-- Python no-argument `str.split()`: split on whitespace runs, discarding
empty pieces. -/
def split_ws (s : List Char) : List (List Char) :=
  (split_ws_raw s).filter (· ≠ [])

/-- Python substring containment `sub in s`: `sub` occurs contiguously
somewhere in `s`. -/
def contains_sub (sub : List Char) : List Char → Bool
  | [] => sub.isEmpty
  | c :: rest => sub.isPrefixOf (c :: rest) || contains_sub sub rest

/-- Python `"CLIST" in line`. -/
def contains_clist (line : List Char) : Bool :=
  contains_sub ['C', 'L', 'I', 'S', 'T'] line

/-- `SimplexTerminal._parse_clist`: split the response on newlines, strip
each line, skip blank lines, the bare prompt `"-"` and echo lines containing
`"CLIST"`; split the rest on whitespace and keep `(parts[0], parts[1])` when
there are at least two tokens, silently dropping shorter lines. -/
def parse_clist (response : List Char) : List (List Char × List Char) :=
  (split_lines response).filterMap fun line =>
    let line := strip line
    if line.isEmpty || line == ['-'] || contains_clist line then none
    else
      match split_ws line with
      | p0 :: p1 :: _ => some (p0, p1)
      | _ => none

/-- `SimplexTerminal.get_clist`: issue the CLIST exchange and parse the
captured text.  Its own `try`/`except` wrapper maps any raised exception to
`[]`; the only fallible operation in the body is the serial exchange, whose
failure `send_command` has already swallowed into `""`, which parses to
`[]`. -/
def get_clist (outcome : LinkOutcome) : List (List Char × List Char) :=
  parse_clist (send_command outcome)

/-! ## Points metadata (`src/points/points_manager.py`) -/

/-- The `PointInfo` dataclass. -/
structure PointInfo where
  point_id : List Char
  hardware_type : List Char
  point_type : List Char
  description : List Char
  location : List Char
  custom_fields : List (List Char)
  last_status : Option (List Char) := none
  last_update : Option Nat := none
deriving DecidableEq, Repr

/-- The `PointsManager.points` dict: an association list keyed by point id,
in insertion order, with unique keys by construction. -/
abbrev PointsManager := List (List Char × PointInfo)

/-- Python `dict` lookup on an association list (first match). -/
def alist_lookup {α : Type} : List (List Char × α) → List Char → Option α
  | [], _ => none
  | p :: rest, k => if p.1 = k then some p.2 else alist_lookup rest k

/-- Helper for Python `point_id.rsplit('-0', 1)[0]`: the part of the string
before the last occurrence of `"-0"`, or `none` when `"-0"` does not
occur. -/
def before_last_dash0 : List Char → Option (List Char)
  | [] => none
  | c :: rest =>
    match before_last_dash0 rest with
    | some t => some (c :: t)
    | none =>
      if c = '-' ∧ rest.head? = some '0' then some [] else none

/-- Python `point_id.rsplit('-0', 1)[0]`: the prefix of the id before the
last `"-0"`, or the whole id when there is none. -/
def rsplit_dash0 (s : List Char) : List Char :=
  (before_last_dash0 s).getD s

/-- The key under which `PointsManager.get_point_info` finds a point: the
exact id first, then the id with its `-0` suffix handling applied. -/
def get_point_key (pm : PointsManager) (point_id : List Char) : Option (List Char) :=
  if (alist_lookup pm point_id).isSome then some point_id
  else
    let base_id := rsplit_dash0 point_id
    if (alist_lookup pm base_id).isSome then some base_id else none

/-- `PointsManager.get_point_info`: exact lookup first, then the `-0`-suffix
fallback. -/
def get_point_info (pm : PointsManager) (point_id : List Char) : Option PointInfo :=
  match get_point_key pm point_id with
  | some k => alist_lookup pm k
  | none => none

/-- `PointsManager.update_point_status`: when the point is known, mutate its
record's `last_status` and `last_update` in place; otherwise only log a
warning and leave the store unchanged. -/
def update_point_status (pm : PointsManager) (point_id status : List Char)
    (now : Nat) : PointsManager :=
  match get_point_key pm point_id with
  | none => pm
  | some k =>
    pm.map fun p =>
      if p.1 = k then (p.1, { p.2 with last_status := some status, last_update := some now })
      else p

/-! ## Monitor (`src/monitor/status_monitor.py`) -/

/-- The `StatusMonitor.current_states` / `new_states` maps: point id to
`PointStatus`, in insertion order. -/
abbrev Snapshot := List (List Char × PointStatus)

/-- Python dict assignment `d[k] = v` on an association list: overwrite the
existing entry in place, or append a new one. -/
def dict_insert (m : Snapshot) (k : List Char) (v : PointStatus) : Snapshot :=
  if (alist_lookup m k).isSome then
    m.map fun p => if p.1 = k then (k, v) else p
  else m ++ [(k, v)]

/-- The first loop of `StatusMonitor.detect_changes` over `new_states`:
each iteration first calls `points_manager.update_point_status`, then in the
NEW and CHANGED branches constructs
`StatusChange(..., enriched_data=...)` — a keyword argument the
`StatusChange` dataclass does not declare, so the construction raises
`TypeError` (modelled as `.error`), carrying the store mutations already
performed.  The `get_enriched_status` calls made just before are pure reads
whose results the raise discards, so they are not modelled. -/
def detect_changes_loop1 (prev : Snapshot) (now : Nat) :
    PointsManager → List (List Char × PointStatus) → PointsManager × Except String Unit
  | pm, [] => (pm, .ok ())
  | pm, (point_id, new_status) :: rest =>
    let pm2 := update_point_status pm point_id new_status.status now
    match alist_lookup prev point_id with
    | none =>
      (pm2, .error "TypeError: unexpected keyword argument enriched_data")
    | some old =>
      if new_status.status ≠ old.status then
        (pm2, .error "TypeError: unexpected keyword argument enriched_data")
      else detect_changes_loop1 prev now pm2 rest

/-- `StatusMonitor.detect_changes`, with the `points_manager` state threaded
explicitly and the raised `TypeError` made visible: the first loop walks
`new_states`, the second loop walks `current_states` and raises the same
`TypeError` at the first cleared point (its `StatusChange` construction
passes the undeclared `previous_enriched_data` keyword); when neither loop
emits anything the change list is empty. -/
def detect_changes (pm : PointsManager) (current_states new_states : Snapshot)
    (now : Nat) : PointsManager × Except String (List StatusChange) :=
  match detect_changes_loop1 current_states now pm new_states with
  | (pm2, .error e) => (pm2, .error e)
  | (pm2, .ok ()) =>
    if current_states.any fun p => (alist_lookup new_states p.1).isNone then
      (pm2, .error "TypeError: unexpected keyword argument previous_enriched_data")
    else (pm2, .ok [])

/-- The dict comprehension of `StatusMonitor.start_monitoring` that builds
`new_states` from the parsed CLIST rows; `none` models the `IndexError`
propagating out of `PointStatus.from_clist_line`. -/
def build_new_states (now : Nat) : List (List Char × List Char) → Snapshot → Option Snapshot
  | [], acc => some acc
  | (pid, st) :: rest, acc =>
    match from_clist_line pid st now with
    | none => none
    | some ps => build_new_states now rest (dict_insert acc pid ps)

/-- One iteration of the `while self.running` loop of
`StatusMonitor.start_monitoring`: fetch and parse CLIST, build `new_states`,
detect and handle changes, and only then replace `current_states`; any
exception in between lands in the `except` clause, which re-logs-in and
leaves `current_states` untouched.  Returns the new `current_states`, the
points store, and whether the iteration failed (entered the `except`
clause).  `_handle_changes` only logs and is reached only with an empty
change list, so it is not modelled further. -/
def monitor_step (current_states : Snapshot) (pm : PointsManager)
    (outcome : LinkOutcome) (now : Nat) : Snapshot × PointsManager × Bool :=
  let points_data := get_clist outcome
  match build_new_states now points_data [] with
  | none => (current_states, pm, true)
  | some new_states =>
    match detect_changes pm current_states new_states now with
    | (pm2, .error _) => (current_states, pm2, true)
    | (pm2, .ok _changes) => (new_states, pm2, false)

/-! ## Theorems: session error swallowing -/

/-- C9: every internal failure is swallowed at the Session interface:
`send_command` returns the empty string and `get_clist` the empty list on
any raised exception, making a link failure indistinguishable from a
genuinely empty panel response or an empty point list. -/
theorem session_swallows_link_errors (e : String) :
    send_command (.error e) = [] ∧
    get_clist (.error e) = [] ∧
    send_command (.error e) = send_command (.ok []) ∧
    get_clist (.error e) = get_clist (.ok []) :=
  ⟨rfl, rfl, rfl, rfl⟩

/-! ## Theorems: point-status derivation -/

/-- C8: `PointStatus` construction derives its fields by the lookup rules:
the spec's concrete examples (`"A12"`/`"P3"`/`"M1-2"`/`"ZN1"` point types,
`"F1-"` and `"T0-"` status codes) evaluate as stated, and in general the
point type comes from the `point_id` prefix, the state type from
`status[0]` (Unknown for unlisted letters), `is_active` from
`status[1] == '1'` and `is_acknowledged` from `status[2] == '-'`. -/
theorem from_clist_line_derivation :
    ((from_clist_line ['A', '1', '2'] ['F', '1', '-'] 0).map PointStatus.point_type
      = some .Analog) ∧
    ((from_clist_line ['P', '3'] ['F', '1', '-'] 0).map PointStatus.point_type
      = some .Digital) ∧
    ((from_clist_line ['M', '1', '-', '2'] ['F', '1', '-'] 0).map PointStatus.point_type
      = some .Mapnet) ∧
    ((from_clist_line ['Z', 'N', '1'] ['F', '1', '-'] 0).map PointStatus.point_type
      = some .Physical) ∧
    ((from_clist_line ['A', '1', '2'] ['F', '1', '-'] 0).map
        (fun p => (p.state_type, p.is_active, p.is_acknowledged))
      = some (.Fire, true, true)) ∧
    ((from_clist_line ['A', '1', '2'] ['T', '0', '-'] 0).map
        (fun p => (p.state_type, p.is_active))
      = some (.Trouble, false)) ∧
    (∀ point_id status now ps, from_clist_line point_id status now = some ps →
      ps.point_type = point_type_of point_id ∧
      (∀ c, status.head? = some c → ps.state_type = state_type_of c) ∧
      (∀ c, status.head? = some c → c ∉ (['C', 'T', 'U', 'F', 'S', 'P'] : List Char) →
        ps.state_type = .Unknown) ∧
      (ps.is_active = true ↔ status[1]? = some '1') ∧
      (ps.is_acknowledged = true ↔ status[2]? = some '-')) := by
  refine ⟨by decide, by decide, by decide, by decide, by decide, by decide, ?_⟩
  intro point_id status now ps h
  rcases status with _ | ⟨c0, _ | ⟨c1, _ | ⟨c2, rest⟩⟩⟩ <;>
    simp only [from_clist_line, Option.some_inj, reduceCtorEq] at h
  subst h
  refine ⟨rfl, ?_, ?_, ?_, ?_⟩
  · intro c hc
    simp only [List.head?_cons, Option.some_inj] at hc
    subst hc
    rfl
  · intro c hc hmem
    simp only [List.head?_cons, Option.some_inj] at hc
    subst hc
    simp only [List.mem_cons, List.mem_singleton, not_or] at hmem
    obtain ⟨h1, h2, h3, h4, h5, h6, _⟩ := hmem
    simp [state_type_of, h1, h2, h3, h4, h5, h6]
  · simp
  · simp

/-- Sample point record used to instantiate the derivation rules: an
unlisted state letter with a non-`AUXPM` prefix. -/
def ps_unknown : PointStatus :=
  { point_id := ['B', '7']
    status := ['X', '1', '-']
    timestamp := 3
    point_type := .Physical
    state_type := .Unknown
    is_active := true
    is_acknowledged := true }

/-- C8 (witness): the derivation rules applied to the concrete raw pair
`("B7", "X1-")`. -/
theorem from_clist_line_derivation_witness :
    ps_unknown.point_type = point_type_of ['B', '7'] ∧
    ps_unknown.state_type = StateType.Unknown := by
  have h := from_clist_line_derivation.2.2.2.2.2.2 ['B', '7'] ['X', '1', '-'] 3
    ps_unknown (by decide)
  exact ⟨h.1, h.2.2.1 'X' rfl (by decide)⟩

/-- C10: `from_clist_line` is total exactly for status tokens of length at
least 3: shorter tokens make the unconditional `status[1]`/`status[2]`
indexing raise `IndexError` (modelled as `none`); under the precondition
`3 ≤ status.length` (with a non-empty `point_id`) the error branch is
unreachable. -/
theorem from_clist_line_total_iff :
    (∀ point_id status now, status.length < 3 →
      from_clist_line point_id status now = none) ∧
    (∀ point_id status now, 3 ≤ status.length → point_id ≠ [] →
      (from_clist_line point_id status now).isSome = true) := by
  constructor
  · intro point_id status now h
    rcases status with _ | ⟨c0, _ | ⟨c1, _ | ⟨c2, rest⟩⟩⟩
    · rfl
    · rfl
    · rfl
    · simp at h
      omega
  · intro point_id status now h _hpid
    rcases status with _ | ⟨c0, _ | ⟨c1, _ | ⟨c2, rest⟩⟩⟩
    · simp at h
    · simp at h
    · simp at h
    · simp [from_clist_line]

/-- C10 (witness): a two-character status token fails, a three-character
one succeeds. -/
theorem from_clist_line_total_iff_witness :
    from_clist_line ['A', '1'] ['F', '1'] 0 = none ∧
    (from_clist_line ['A', '1'] ['F', '1', '-'] 0).isSome = true :=
  ⟨from_clist_line_total_iff.1 ['A', '1'] ['F', '1'] 0 (by decide),
   from_clist_line_total_iff.2 ['A', '1'] ['F', '1', '-'] 0 (by decide) (by decide)⟩

/-! ## Theorems: diff engine and monitor loop -/

/-- Sample active fire point, as built from the raw line `"A1 F1-"`. -/
def ps_fire : PointStatus :=
  { point_id := ['A', '1']
    status := ['F', '1', '-']
    timestamp := 0
    point_type := .Analog
    state_type := .Fire
    is_active := true
    is_acknowledged := true }

/-- Sample metadata record for point `A1` with no status recorded yet. -/
def info_a1 : PointInfo :=
  { point_id := ['A', '1']
    hardware_type := []
    point_type := []
    description := []
    location := []
    custom_fields := [] }

/-- C5 (code defect): whenever `detect_changes` would emit a transition it
raises `TypeError` instead, because the `StatusChange` dataclass declares
neither `enriched_data` nor `previous_enriched_data`: a NEW point aborts the
first loop, a cleared point aborts the second loop — no transition list is
ever produced for a changed snapshot. -/
theorem detect_changes_raises_on_any_transition :
    (detect_changes [] [] [(['A', '1'], ps_fire)] 0).2 =
      .error "TypeError: unexpected keyword argument enriched_data" ∧
    (detect_changes [] [(['A', '1'], ps_fire)] [] 0).2 =
      .error "TypeError: unexpected keyword argument previous_enriched_data" ∧
    (detect_changes [] [(['A', '1'], ps_fire)] [(['A', '1'], ps_fire)] 0).2 =
      .ok [] := by
  refine ⟨rfl, rfl, rfl⟩

/-- C6 (counterexample): `detect_changes` does not leave the points-metadata
collaborator unchanged — even on two identical snapshots it writes
`last_status`/`last_update` into the store. -/
theorem detect_changes_mutates_store_counterexample :
    (detect_changes [(['A', '1'], info_a1)] [(['A', '1'], ps_fire)]
        [(['A', '1'], ps_fire)] 5).1 ≠ [(['A', '1'], info_a1)] := by
  decide

/-- Helper: the exception outcome of the first `detect_changes` loop depends
only on the two snapshots, not on the points store or the clock. -/
theorem detect_changes_loop1_snd (prev : Snapshot) (n n2 : Nat) :
    ∀ cur pm pm2,
      (detect_changes_loop1 prev n pm cur).2 = (detect_changes_loop1 prev n2 pm2 cur).2 := by
  intro cur
  induction cur with
  | nil =>
    intro pm pm2
    rfl
  | cons p rest ih =>
    intro pm pm2
    obtain ⟨point_id, new_status⟩ := p
    simp only [detect_changes_loop1]
    cases alist_lookup prev point_id with
    | none => rfl
    | some old =>
      by_cases h : new_status.status ≠ old.status
      · simp only [if_pos h]
      · simp only [if_neg h]
        exact ih _ _

/-- C6 (amended): `detect_changes` is deterministic in its two snapshot
arguments — its returned outcome does not depend on the points store or the
clock — but it is not free of side effects: it writes `last_status` and
`last_update` into the points-metadata store for every point of the current
snapshot it processes. -/
theorem detect_changes_deterministic_but_mutating :
    (∀ pm pm2 prev cur n n2,
        (detect_changes pm prev cur n).2 = (detect_changes pm2 prev cur n2).2) ∧
    (detect_changes [(['A', '1'], info_a1)] [(['A', '1'], ps_fire)]
        [(['A', '1'], ps_fire)] 5).1 =
      [(['A', '1'],
        { info_a1 with last_status := some ['F', '1', '-'], last_update := some 5 })] := by
  constructor
  · intro pm pm2 prev cur n n2
    have h := detect_changes_loop1_snd prev n n2 cur pm pm2
    simp only [detect_changes]
    rcases h1 : detect_changes_loop1 prev n pm cur with ⟨pma, ra⟩
    rcases h2 : detect_changes_loop1 prev n2 pm2 cur with ⟨pmb, rb⟩
    rw [h1, h2] at h
    simp only at h
    subst h
    cases ra with
    | error e => rfl
    | ok u =>
      cases u
      by_cases hc : (prev.any fun p => (alist_lookup cur p.1).isNone) = true
      · simp [hc]
      · simp [hc]
  · decide

/-- Helper: on a link failure the CLIST text is empty, the parsed point list
is empty, and the poll iteration returns the previous snapshot unchanged:
for a non-empty previous snapshot every previous point looks cleared and the
`StatusChange` construction raises (landing in the `except` clause before
`current_states` is reassigned); for an empty previous snapshot the
replacement snapshot is empty as well. -/
theorem monitor_step_link_failure_fst (states : Snapshot) (pm : PointsManager)
    (e : String) (now : Nat) :
    (monitor_step states pm (.error e) now).1 = states := by
  have hg : get_clist (Except.error e) = [] := rfl
  simp only [monitor_step, hg, build_new_states]
  cases states with
  | nil => rfl
  | cons p rest =>
    simp [detect_changes, detect_changes_loop1, alist_lookup]

/-- C1: a failed poll iteration never clears or replaces the previous
snapshot — `current_states` is reassigned only after change detection and
handling complete without an exception — a mid-poll link failure in
particular leaves it untouched, and the poll following a failed one
therefore diffs against the pre-failure snapshot, behaving exactly as if
run from the pre-failure state. -/
theorem monitor_snapshot_preserved_on_failure :
    (∀ states pm outcome now,
        (monitor_step states pm outcome now).2.2 = true →
        (monitor_step states pm outcome now).1 = states) ∧
    (∀ states pm e now, (monitor_step states pm (.error e) now).1 = states) ∧
    (∀ states pm e now pm2 outcome2 now2,
        monitor_step ((monitor_step states pm (.error e) now).1) pm2 outcome2 now2 =
          monitor_step states pm2 outcome2 now2) := by
  refine ⟨?_, monitor_step_link_failure_fst, ?_⟩
  · intro states pm outcome now h
    rcases hm : monitor_step states pm outcome now with ⟨s2, pm2, flag⟩
    rw [hm] at h
    simp only at h ⊢
    simp only [monitor_step] at hm
    split at hm
    · injection hm with h1 hrest
      exact h1.symm
    · split at hm
      · injection hm with h1 hrest
        exact h1.symm
      · injection hm with h1 hrest
        injection hrest with h2 h3
        rw [← h3] at h
        simp at h
  · intro states pm e now pm2 outcome2 now2
    rw [monitor_step_link_failure_fst states pm e now]

/-- C1 (witness): a concrete failed iteration — one known fire point, link
down — keeps the snapshot. -/
theorem monitor_snapshot_preserved_on_failure_witness :
    (monitor_step [(['A', '1'], ps_fire)] [] (.error "serial exception") 0).1 =
      [(['A', '1'], ps_fire)] :=
  monitor_snapshot_preserved_on_failure.1 [(['A', '1'], ps_fire)] []
    (.error "serial exception") 0 (by decide)
